import Mathlib

/-
  A shallow embedding of tsukkomi/typed.py: runtime checking of function
  argument types and return types around a wrapped callable, with the
  decorator typechecked as the entry point.
-/

namespace Tsukkomi

/-- Runtime type identities of the host-language values that appear in the
module and in its examples. object is the common supertype, and the host
makes bool a subclass of int. -/
inductive Ty where
  | str
  | boolT
  | intT
  | floatT
  | noneT
  | function
  | object
deriving DecidableEq

/-- Type hints as produced by the host annotation machinery: either a plain
class used with an instance test, or a parametrized callable hint carrying
the hinted argument types and the hinted result type (the CallableMeta
case of check_type). -/
inductive Hint where
  | simple (t : Ty)
  | callable (args : List Hint) (result : Hint)

mutual

/-- Decidable equality of hints, written by hand because the hint type
nests a list of hints. -/
def Hint.decEq : (a b : Hint) → Decidable (a = b)
  | .simple t, .simple u =>
    if h : t = u then isTrue (by rw [h])
    else isFalse (by intro hh; injection hh with x; exact h x)
  | .simple _, .callable _ _ => isFalse (by intro hh; exact Hint.noConfusion hh)
  | .callable _ _, .simple _ => isFalse (by intro hh; exact Hint.noConfusion hh)
  | .callable as r, .callable bs s =>
    match Hint.decEqList as bs, Hint.decEq r s with
    | isTrue h1, isTrue h2 => isTrue (by rw [h1, h2])
    | isFalse h1, _ => isFalse (by intro hh; injection hh with x y; exact h1 x)
    | isTrue _, isFalse h2 => isFalse (by intro hh; injection hh with x y; exact h2 y)

/-- Decidable equality of hint lists, mutually with Hint.decEq. -/
def Hint.decEqList : (a b : List Hint) → Decidable (a = b)
  | [], [] => isTrue rfl
  | [], _ :: _ => isFalse (by intro hh; exact List.noConfusion hh)
  | _ :: _, [] => isFalse (by intro hh; exact List.noConfusion hh)
  | a :: as, b :: bs =>
    match Hint.decEq a b, Hint.decEqList as bs with
    | isTrue h1, isTrue h2 => isTrue (by rw [h1, h2])
    | isFalse h1, _ => isFalse (by intro hh; injection hh with x y; exact h1 x)
    | isTrue _, isFalse h2 => isFalse (by intro hh; injection hh with x y; exact h2 y)

end

instance : DecidableEq Hint := Hint.decEq

/-- Runtime values. A function value carries its declared signature data,
which is all the checker ever inspects of it: the annotations of its
parameters in declaration order and its optional result annotation. -/
inductive Val where
  | str (s : String)
  | bool (b : Bool)
  | int (n : Int)
  | float (lit : String)
  | none
  | func (argAnns : List Hint) (retAnn : Option Hint)
deriving DecidableEq

/-- The concrete runtime class of a value, as the host type function
reports it. -/
def typeOf : Val → Ty
  | .str _ => .str
  | .bool _ => .boolT
  | .int _ => .intT
  | .float _ => .floatT
  | .none => .noneT
  | .func _ _ => .function

/-- Subclass relation of the host classes: reflexive, bool is a subclass
of int, and every class is a subclass of object. -/
def isSubclass (a b : Ty) : Bool :=
  a == b || (a == .boolT && b == .intT) || b == .object

/-- Host instance test of a value against a plain class: true when the
concrete runtime class equals the class or is one of its subclasses. -/
def isinstance (value : Val) (hint : Ty) : Bool :=
  isSubclass (typeOf value) hint

/-- Exceptions the embedded code can raise. argMismatch, returnMismatch
and bindError model TypeError values; keyError models the KeyError from a
missing mapping key; reflectionError models the exception raised by host
reflection, typing.get_type_hints on an object that is not a function. -/
inductive PyError where
  | argMismatch (argName : String) (actual : Hint) (expected : Hint)
  | returnMismatch (actual : Hint) (expected : Option Hint) (callableName : String)
  | bindError
  | reflectionError
  | keyError (key : String)
deriving DecidableEq

/-- Whether an exception is the argument-mismatch TypeError raised by
check_arguments, the one that names the offending parameter. -/
def PyError.isArgMismatch : PyError → Bool
  | .argMismatch _ _ _ => true
  | _ => false

/-- One formal parameter: its name, its optional annotation and its
optional default value. -/
structure Param where
  name : String
  ann : Option Hint
  default : Option Val
deriving DecidableEq

/-- A callable object's declared signature: the formal parameters in
declaration order, and the optional result annotation. -/
structure Signature where
  params : List Param
  ret : Option Hint
deriving DecidableEq

/-- A host function: its name, its declared signature and its body; the
body receives the fully bound arguments, defaults applied, in parameter
order. -/
structure PyFun where
  name : String
  sig : Signature
  body : List (String × Val) → Val

/-- Embeds typing.get_type_hints applied to a function with the given
signature: a mapping with one entry per annotated parameter, plus an entry
under the key return when a result annotation is present. -/
def get_type_hints (sig : Signature) : List (String × Hint) :=
  sig.params.filterMap (fun p => p.ann.map (fun h => (p.name, h))) ++
    (match sig.ret with
     | some h => [(("return"), h)]
     | Option.none => [])

/-- The names of the parameters that are filled positionally when n
positional arguments are supplied. -/
def posNames (params : List Param) (n : Nat) : List String :=
  (params.take n).map Param.name

/-- Embeds the success condition of inspect.Signature.bind for plain
positional-or-keyword parameters: not more positional arguments than
parameters, every keyword names a parameter, no keyword collides with a
positionally filled parameter, and every parameter left unfilled has a
default value. -/
def bindOk (sig : Signature) (args : List Val) (kwargs : List (String × Val)) : Bool :=
  decide (args.length ≤ sig.params.length) &&
  kwargs.all (fun kv => sig.params.any (fun p => p.name == kv.1)) &&
  kwargs.all (fun kv => !((posNames sig.params args.length).contains kv.1)) &&
  (sig.params.drop args.length).all
    (fun p => kwargs.any (fun kv => kv.1 == p.name) || p.default.isSome)

/-- The explicitly supplied arguments in parameter order, as collected in
the arguments mapping of the BoundArguments that Signature.bind returns:
positional arguments fill the leading parameters, keyword arguments fill
by name, and a parameter that would fall back to its default is left out,
because bind does not apply defaults. -/
def boundArgsCore (params : List Param) (args : List Val)
    (kwargs : List (String × Val)) : List (String × Val) :=
  match params, args with
  | [], _ => []
  | p :: ps, a :: rest => (p.name, a) :: boundArgsCore ps rest kwargs
  | p :: ps, [] =>
    (match List.lookup p.name kwargs with
     | some v => [(p.name, v)]
     | Option.none => []) ++ boundArgsCore ps [] kwargs

/-- The arguments mapping of Signature.bind for a whole signature. -/
def boundArguments (sig : Signature) (args : List Val)
    (kwargs : List (String × Val)) : List (String × Val) :=
  boundArgsCore sig.params args kwargs

/-- Embeds inspect.Signature.bind: a TypeError on unbindable arguments,
otherwise the mapping of explicitly bound arguments. -/
def signatureBind (sig : Signature) (args : List Val)
    (kwargs : List (String × Val)) : Except PyError (List (String × Val)) :=
  if bindOk sig args kwargs then .ok (boundArguments sig args kwargs)
  else .error .bindError

/-- The binding the host itself performs when the original function is
called: like boundArgsCore, but a parameter left unfilled takes its
default value. -/
def boundFullCore (params : List Param) (args : List Val)
    (kwargs : List (String × Val)) : List (String × Val) :=
  match params, args with
  | [], _ => []
  | p :: ps, a :: rest => (p.name, a) :: boundFullCore ps rest kwargs
  | p :: ps, [] =>
    (match List.lookup p.name kwargs with
     | some v => [(p.name, v)]
     | Option.none =>
       match p.default with
       | some d => [(p.name, d)]
       | Option.none => []) ++ boundFullCore ps [] kwargs

/-- Models the comparison of hint args against arg_types inside
check_callable. In the source, arg_types is a generator expression, a
generator object, and the host equality between a tuple and a generator
object is false whatever either side would yield, because no structural
comparison is defined between the two classes. -/
def tupleEqGen (_hintArgs : List Hint) (_argTypes : List Hint) : Bool :=
  false

/-- Structural equality of two hints, the host equality on annotation
objects: classes compare by identity and callable hints structurally. -/
def hintEq (a b : Hint) : Bool := decide (a = b)

/-- Embeds check_callable, typed.py lines 51 to 65, receiving the args and
result components of the callable hint. For a function value it mirrors:
popping the return key of the candidate's hints with NoneType as the
fallback, the arg_types generator over the parameter annotations, the
conjunction of the tuple-versus-generator comparison with the result
comparison, and the synthesized observed callable type. For a value that
is not a function it models host reflection raising. -/
def check_callable (callable_ : Val) (hintArgs : List Hint) (hintResult : Hint) :
    Except PyError (Hint × Bool) :=
  match callable_ with
  | .func argAnns retAnn =>
    let return_type := retAnn.getD (.simple .noneT)
    let arg_types := argAnns
    let correct := tupleEqGen hintArgs arg_types && hintEq hintResult return_type
    .ok (.callable arg_types return_type, correct)
  | _ => .error .reflectionError

/-- Embeds check_type, typed.py lines 16 to 28: dispatch on the hint being
a callable hint, otherwise an instance test together with the concrete
runtime type of the value. -/
def check_type (value : Val) (hint : Hint) : Except PyError (Hint × Bool) :=
  match hint with
  | .callable hargs hres => check_callable value hargs hres
  | .simple t => .ok (.simple (typeOf value), isinstance value t)

/-- Embeds check_return, typed.py lines 31 to 48. The source sets correct
to True, binds the matcher verdict to the otherwise unused variable
checks, and then tests correct, so the raise branch is unreachable; the
mapping access on the return key raises KeyError when no result
annotation exists. -/
def check_return (callable_name : String) (r : Val)
    (hints : List (String × Hint)) : Except PyError Unit :=
  let correct := true
  match List.lookup ("return") hints with
  | Option.none => .error (.keyError ("return"))
  | some hintR =>
    match check_type r hintR with
    | .error e => .error e
    | .ok _checks =>
      if correct = false then
        .error (.returnMismatch (.simple (typeOf r)) (List.lookup ("return") hints)
          callable_name)
      else .ok ()

/-- The per-argument loop of check_arguments, typed.py lines 80 to 90:
skip a bound name that has no hint, otherwise match the value and raise
on the first failure, naming the argument and both types. -/
def checkLoop (hints : List (String × Hint)) :
    List (String × Val) → Except PyError Unit
  | [] => .ok ()
  | (argument_name, value) :: rest =>
    match List.lookup argument_name hints with
    | Option.none => checkLoop hints rest
    | some type_hint =>
      match check_type value type_hint with
      | .error e => .error e
      | .ok (actual_type, correct) =>
        if correct then checkLoop hints rest
        else .error (.argMismatch argument_name actual_type type_hint)

/-- Embeds check_arguments, typed.py lines 68 to 90: bind the call-site
arguments with Signature.bind, then check every explicitly bound argument
in bound order. -/
def check_arguments (sig : Signature) (hints : List (String × Hint))
    (args : List Val) (kwargs : List (String × Val)) : Except PyError Unit :=
  match signatureBind sig args kwargs with
  | .error e => .error e
  | .ok bound => checkLoop hints bound

/-- Calling the original function: the host itself binds the arguments,
raising the same TypeError on unbindable calls, and runs the body on the
bound arguments with defaults applied. -/
def callOriginal (f : PyFun) (args : List Val)
    (kwargs : List (String × Val)) : Except PyError Val :=
  if bindOk f.sig args kwargs then
    .ok (f.body (boundFullCore f.sig.params args kwargs))
  else .error .bindError

/-- Embeds the wrapper produced by typechecked, typed.py lines 119 to 127:
obtain the hints of the wrapped callable, check the arguments, run the
original callable, run the return check, and hand the result back. -/
def typechecked (f : PyFun) (args : List Val)
    (kwargs : List (String × Val)) : Except PyError Val :=
  match check_arguments f.sig (get_type_hints f.sig) args kwargs with
  | .error e => .error e
  | .ok _ =>
    match callOriginal f args kwargs with
    | .error e => .error e
    | .ok result =>
      match check_return f.name result (get_type_hints f.sig) with
      | .error e => .error e
      | .ok _ => .ok result

/-- The docstring example foobar, declared as x of type str to bool. -/
def foobar : Val := .func [.simple .str] (some (.simple .boolT))

/-- The signature of the docstring example hello_world, with foo of type
str, bar of the callable type from str to bool, and result type bool. -/
def helloWorldSig : Signature :=
  ⟨[⟨("foo"), some (.simple .str), Option.none⟩,
    ⟨("bar"), some (.callable [.simple .str] (.simple .boolT)), Option.none⟩],
   some (.simple .boolT)⟩

/-- The docstring example hello_world as a host function; on the example
input its body, bar applied to foo, yields true. -/
def hello_world : PyFun := ⟨("hello_world"), helloWorldSig, fun _ => .bool true⟩

/-- Whether the matcher, applied to a value and a hint, renders the
verdict that the value conforms; a raise inside the matcher counts as not
conforming. -/
def conformsB (v : Val) (h : Hint) : Bool :=
  match check_type v h with
  | .ok (_, c) => c
  | .error _ => false

/-- Whether one bound entry passes the argument loop: unhinted names pass,
hinted ones pass exactly when the matcher says the value conforms. -/
def entryOk (hints : List (String × Hint)) : String × Val → Bool
  | (n, v) =>
    match List.lookup n hints with
    | Option.none => true
    | some h => conformsB v h

/-- The signature of a function whose single parameter x carries no
annotation, with result type bool. -/
def unannSig : Signature :=
  ⟨[⟨("x"), Option.none, Option.none⟩], some (.simple .boolT)⟩

/-- The signature of a function g whose single parameter a is annotated
with the callable type from str to bool, with result type bool. -/
def calSig : Signature :=
  ⟨[⟨("a"), some (.callable [.simple .str] (.simple .boolT)), Option.none⟩],
   some (.simple .boolT)⟩

/-- The function g of signature calSig, with a body returning None. -/
def calFun : PyFun := ⟨("g"), calSig, fun _ => Val.none⟩

/-- A function of no parameters declared with result type bool whose body
returns the string oops, violating its own result annotation. -/
def badRet : PyFun := ⟨("bad"), ⟨[], some (.simple .boolT)⟩, fun _ => Val.str ("oops")⟩

/-- A function with no annotations at all: one unannotated parameter and
no result annotation. -/
def plainFun : PyFun :=
  ⟨("plain"), ⟨[⟨("x"), Option.none, Option.none⟩], Option.none⟩, fun _ => Val.none⟩

/-- A function f whose parameter x is annotated str but defaults to the
integer 3, a value violating that annotation; result type bool. -/
def defFun : PyFun :=
  ⟨("f"), ⟨[⟨("x"), some (.simple .str), some (Val.int 3)⟩], some (.simple .boolT)⟩,
   fun _ => Val.bool true⟩

/-- A candidate callable declared from str to str. -/
def gStrStr : Val := .func [.simple .str] (some (.simple .str))

/-- A candidate callable declared from int to bool. -/
def gIntBool : Val := .func [.simple .intT] (some (.simple .boolT))

/-- The matcher only ever raises the reflection error: when check_type
fails, the exception is the one raised by host reflection on a value that
is not a function. -/
theorem check_type_error_eq (v : Val) (h : Hint) (e : PyError)
    (he : check_type v h = .error e) : e = PyError.reflectionError := by
  cases h with
  | simple t => exact absurd he (by simp [check_type])
  | callable hargs hres =>
    cases v <;>
      first
        | exact (Except.error.inj he).symm
        | exact absurd he (by simp [check_type, check_callable])

/-- The argument loop succeeds exactly when every bound entry passes. -/
theorem checkLoop_eq_ok_iff (hints : List (String × Hint)) (l : List (String × Val)) :
    checkLoop hints l = .ok () ↔ ∀ p ∈ l, entryOk hints p = true := by
  induction l with
  | nil => simp [checkLoop]
  | cons p rest ih =>
    obtain ⟨n, v⟩ := p
    rw [List.forall_mem_cons]
    cases hl : List.lookup n hints with
    | none =>
      have h1 : entryOk hints (n, v) = true := by simp [entryOk, hl]
      have h2 : checkLoop hints ((n, v) :: rest) = checkLoop hints rest := by
        simp [checkLoop, hl]
      rw [h2, h1, ih]
      simp
    | some h =>
      cases hc : check_type v h with
      | error e =>
        have h1 : entryOk hints (n, v) = false := by simp [entryOk, hl, conformsB, hc]
        have h2 : checkLoop hints ((n, v) :: rest) = .error e := by
          simp [checkLoop, hl, hc]
        rw [h2, h1]
        simp
      | ok pr =>
        obtain ⟨obs, c⟩ := pr
        cases c with
        | true =>
          have h1 : entryOk hints (n, v) = true := by
            simp [entryOk, hl, conformsB, hc]
          have h2 : checkLoop hints ((n, v) :: rest) = checkLoop hints rest := by
            simp [checkLoop, hl, hc]
          rw [h2, h1, ih]
          simp
        | false =>
          have h1 : entryOk hints (n, v) = false := by
            simp [entryOk, hl, conformsB, hc]
          have h2 : checkLoop hints ((n, v) :: rest) =
              .error (.argMismatch n obs h) := by
            simp [checkLoop, hl, hc]
          rw [h2, h1]
          simp

/-- When the argument loop does not succeed, the exception it raises is
either the reflection error or an argument mismatch that names a bound
entry whose hinted check rendered the verdict false. -/
theorem checkLoop_error_shape (hints : List (String × Hint)) (l : List (String × Val)) :
    checkLoop hints l = .ok () ∨
      ∃ e, checkLoop hints l = .error e ∧
        (e = PyError.reflectionError ∨
          ∃ n obs h, e = PyError.argMismatch n obs h ∧
            ∃ v, (n, v) ∈ l ∧ List.lookup n hints = some h ∧
              check_type v h = .ok (obs, false)) := by
  induction l with
  | nil => exact Or.inl rfl
  | cons p rest ih =>
    obtain ⟨n, v⟩ := p
    cases hl : List.lookup n hints with
    | none =>
      have h2 : checkLoop hints ((n, v) :: rest) = checkLoop hints rest := by
        simp [checkLoop, hl]
      rw [h2]
      rcases ih with hok | ⟨e, he, hsh⟩
      · exact Or.inl hok
      · refine Or.inr ⟨e, he, ?_⟩
        rcases hsh with hx | ⟨n2, obs2, h2x, heq, v2, hmem, hlk, hct⟩
        · exact Or.inl hx
        · exact Or.inr ⟨n2, obs2, h2x, heq, v2, List.mem_cons_of_mem _ hmem, hlk, hct⟩
    | some h =>
      cases hc : check_type v h with
      | error e =>
        have h2 : checkLoop hints ((n, v) :: rest) = .error e := by
          simp [checkLoop, hl, hc]
        exact Or.inr ⟨e, h2, Or.inl (check_type_error_eq v h e hc)⟩
      | ok pr =>
        obtain ⟨obs, c⟩ := pr
        cases c with
        | true =>
          have h2 : checkLoop hints ((n, v) :: rest) = checkLoop hints rest := by
            simp [checkLoop, hl, hc]
          rw [h2]
          rcases ih with hok | ⟨e, he, hsh⟩
          · exact Or.inl hok
          · refine Or.inr ⟨e, he, ?_⟩
            rcases hsh with hx | ⟨n2, obs2, h2x, heq, v2, hmem, hlk, hct⟩
            · exact Or.inl hx
            · exact Or.inr ⟨n2, obs2, h2x, heq, v2, List.mem_cons_of_mem _ hmem, hlk, hct⟩
        | false =>
          refine Or.inr ⟨PyError.argMismatch n obs h, ?_, ?_⟩
          · simp [checkLoop, hl, hc]
          · exact Or.inr ⟨n, obs, h, rfl, v, List.mem_cons_self _ _, hl, hc⟩

/-- A prefix all of whose entries pass does not affect the argument loop. -/
theorem checkLoop_append_of_passes (hints : List (String × Hint))
    (pre l : List (String × Val)) (hpre : ∀ p ∈ pre, entryOk hints p = true) :
    checkLoop hints (pre ++ l) = checkLoop hints l := by
  induction pre with
  | nil => rfl
  | cons p rest ih =>
    obtain ⟨n, v⟩ := p
    have h1 : entryOk hints (n, v) = true := hpre _ (List.mem_cons_self _ _)
    have hrest : ∀ q ∈ rest, entryOk hints q = true :=
      fun q hq => hpre q (List.mem_cons_of_mem _ hq)
    rw [List.cons_append]
    cases hl : List.lookup n hints with
    | none =>
      have h2 : checkLoop hints ((n, v) :: (rest ++ l)) = checkLoop hints (rest ++ l) := by
        simp [checkLoop, hl]
      rw [h2]
      exact ih hrest
    | some h =>
      have hcf : conformsB v h = true := by
        have h1x := h1
        simp [entryOk, hl] at h1x
        exact h1x
      cases hc : check_type v h with
      | error e => exact absurd hcf (by simp [conformsB, hc])
      | ok pr =>
        obtain ⟨obs, c⟩ := pr
        have hct : c = true := by
          have h1x := hcf
          simp [conformsB, hc] at h1x
          exact h1x
        have h2 : checkLoop hints ((n, v) :: (rest ++ l)) = checkLoop hints (rest ++ l) := by
          simp [checkLoop, hl, hc, hct]
        rw [h2]
        exact ih hrest

/-- When binding succeeds, check_arguments is the loop over the bound
arguments. -/
theorem check_arguments_eq_checkLoop (sig : Signature) (hints : List (String × Hint))
    (args : List Val) (kwargs : List (String × Val))
    (hb : bindOk sig args kwargs = true) :
    check_arguments sig hints args kwargs =
      checkLoop hints (boundArguments sig args kwargs) := by
  simp [check_arguments, signatureBind, hb]

/-- When the argument check raises, the wrapper raises the same exception. -/
theorem typechecked_error_of_args (f : PyFun) (args : List Val)
    (kwargs : List (String × Val)) (e : PyError)
    (h : check_arguments f.sig (get_type_hints f.sig) args kwargs = .error e) :
    typechecked f args kwargs = .error e := by
  simp [typechecked, h]

/-- A successful association lookup means the key occurs among the keys. -/
theorem lookup_some_mem_keys {β : Type} (a : String) (l : List (String × β)) (b : β)
    (h : List.lookup a l = some b) : a ∈ l.map Prod.fst := by
  induction l with
  | nil => simp [List.lookup] at h
  | cons kv rest ih =>
    obtain ⟨k, v⟩ := kv
    by_cases hk : a = k
    · simp [hk]
    · have hbeq : (a == k) = false := by simp [hk]
      simp only [List.lookup, hbeq] at h
      exact List.mem_cons_of_mem _ (ih h)

/-- Every name in the explicitly bound arguments was explicitly supplied:
it is a positionally filled parameter name or a keyword name. A parameter
that fell back to its default appears in neither list. -/
theorem boundArgsCore_mem (params : List Param) (args : List Val)
    (kwargs : List (String × Val)) (n : String) (v : Val)
    (hmem : (n, v) ∈ boundArgsCore params args kwargs) :
    n ∈ posNames params args.length ∨ n ∈ kwargs.map Prod.fst := by
  induction params generalizing args with
  | nil => simp [boundArgsCore] at hmem
  | cons p ps ih =>
    cases args with
    | cons a rest =>
      have hpn : posNames (p :: ps) (a :: rest).length =
          p.name :: posNames ps rest.length := by
        simp [posNames]
      simp only [boundArgsCore] at hmem
      rcases List.mem_cons.mp hmem with heq | htail
      · left
        rw [hpn]
        have h1 : n = p.name := congrArg Prod.fst heq
        rw [h1]
        exact List.mem_cons_self _ _
      · rcases ih rest htail with hx | hx
        · left
          rw [hpn]
          exact List.mem_cons_of_mem _ hx
        · exact Or.inr hx
    | nil =>
      simp only [boundArgsCore] at hmem
      cases hlk : List.lookup p.name kwargs with
      | some w =>
        rw [hlk] at hmem
        simp only [List.singleton_append] at hmem
        rcases List.mem_cons.mp hmem with heq | htail
        · right
          have h1 : n = p.name := congrArg Prod.fst heq
          rw [h1]
          exact lookup_some_mem_keys _ _ _ hlk
        · rcases ih [] htail with hx | hx
          · exact absurd hx (by simp [posNames])
          · exact Or.inr hx
      | none =>
        rw [hlk] at hmem
        simp only [List.nil_append] at hmem
        rcases ih [] hmem with hx | hx
        · exact absurd hx (by simp [posNames])
        · exact Or.inr hx

/-- C1: the claim promises that a call whose arguments all conform to
their declared types returns the wrapped callable's own result
unmodified, and its cited example is the docstring call of hello_world on
the string hello world and the conforming callable foobar. On the code,
that very call raises the argument-mismatch TypeError for bar instead of
returning true, because check_callable compares the tuple of hinted
argument types against an unconsumed generator object, which is always
false, so even an exactly conforming callable argument is rejected before
the body can run. -/
theorem wellTyped_hello_world_call_rejected :
    typechecked hello_world [Val.str ("hello world"), foobar] [] =
      .error (.argMismatch ("bar") (.callable [.simple .str] (.simple .boolT))
        (.callable [.simple .str] (.simple .boolT))) := rfl

/-- C2, counterexample: a non-conforming argument does not always produce
a TypeError identifying the parameter, the observed type and the expected
type. Binding the float 3.14 to the callable-hinted parameter a of g
makes the check raise the host reflection error, which is not the
argument-mismatch exception and names no parameter. -/
theorem nonCallable_argument_error_unidentified :
    conformsB (Val.float ("3.14")) (.callable [.simple .str] (.simple .boolT)) = false ∧
    typechecked calFun [Val.float ("3.14")] [] = .error PyError.reflectionError ∧
    PyError.isArgMismatch PyError.reflectionError = false := ⟨rfl, rfl, rfl⟩

/-- C2, amended: if the call binds and some bound argument fails to
conform to its declared type, the wrapped call raises an exception and
the body is never executed, in that the outcome is the same error for
every body; the exception is either the argument-mismatch TypeError
identifying a bound parameter whose matcher verdict was false together
with its observed and expected types, or the reflection error raised when
a non-callable value meets a callable type. -/
theorem argument_mismatch_raises_before_body :
    ∀ (nm : String) (sig : Signature) (args : List Val) (kwargs : List (String × Val))
      (n : String) (v : Val) (h : Hint),
      bindOk sig args kwargs = true →
      (n, v) ∈ boundArguments sig args kwargs →
      List.lookup n (get_type_hints sig) = some h →
      conformsB v h = false →
      ∃ e : PyError,
        (∀ b : List (String × Val) → Val,
            typechecked ⟨nm, sig, b⟩ args kwargs = .error e) ∧
        (e = PyError.reflectionError ∨
          ∃ n2 obs h2, e = PyError.argMismatch n2 obs h2 ∧
            ∃ v2, (n2, v2) ∈ boundArguments sig args kwargs ∧
              List.lookup n2 (get_type_hints sig) = some h2 ∧
              check_type v2 h2 = .ok (obs, false)) := by
  intro nm sig args kwargs n v h hb hmem hlk hcf
  have hfail : ¬ checkLoop (get_type_hints sig) (boundArguments sig args kwargs) =
      .ok () := by
    rw [checkLoop_eq_ok_iff]
    intro hall
    have hx := hall (n, v) hmem
    simp [entryOk, hlk, hcf] at hx
  rcases checkLoop_error_shape (get_type_hints sig) (boundArguments sig args kwargs)
    with hok | ⟨e, he, hsh⟩
  · exact absurd hok hfail
  · refine ⟨e, ?_, hsh⟩
    intro b
    apply typechecked_error_of_args
    show check_arguments sig (get_type_hints sig) args kwargs = .error e
    rw [check_arguments_eq_checkLoop _ _ _ _ hb]
    exact he

/-- C2, witness: the amended theorem applied to the call of g on the
float 3.14, whose outcome is the reflection error. -/
theorem argument_mismatch_raises_before_body_inst :
    typechecked ⟨("g"), calSig, fun _ => Val.none⟩ [Val.float ("3.14")] [] =
      .error PyError.reflectionError := by
  obtain ⟨e, he, hsh⟩ :=
    argument_mismatch_raises_before_body ("g") calSig [Val.float ("3.14")] []
      ("a") (Val.float ("3.14"))
      (Hint.callable [Hint.simple Ty.str] (Hint.simple Ty.boolT))
      rfl (by decide) rfl rfl
  rcases hsh with he2 | ⟨n2, obs, h2x, heq, v2, hmem, hlk, hct⟩
  · have h1 := he (fun _ => Val.none)
    rw [he2] at h1
    exact h1
  · have hv2 : v2 = Val.float ("3.14") := by
      have hmem2 : (n2, v2) ∈ [(("a"), Val.float ("3.14"))] := hmem
      have := List.mem_singleton.mp hmem2
      exact congrArg Prod.snd this
    have hn2 : n2 = ("a") := by
      have hmem2 : (n2, v2) ∈ [(("a"), Val.float ("3.14"))] := hmem
      have := List.mem_singleton.mp hmem2
      exact congrArg Prod.fst this
    rw [hv2] at hct
    rw [hn2] at hlk
    have hx : h2x = Hint.callable [Hint.simple Ty.str] (Hint.simple Ty.boolT) := by
      have hlk2 : some h2x =
          some (Hint.callable [Hint.simple Ty.str] (Hint.simple Ty.boolT)) :=
        hlk.symm.trans rfl
      exact Option.some.inj hlk2
    rw [hx] at hct
    exact absurd hct (by simp [check_type, check_callable])

/-- C3: the claim says a returned value violating the declared return
type makes the wrapped call raise a Return Type Mismatch gated by the
matcher verdict. On the code, the function bad, declared with result type
bool, returns the string oops; the matcher verdict is false, yet the
wrapped call hands the ill-typed string back unmodified, because
check_return initializes correct to True, binds the verdict to the unused
variable checks, and tests correct. -/
theorem illTyped_result_returned_unmodified :
    conformsB (Val.str ("oops")) (.simple .boolT) = false ∧
    typechecked badRet [] [] = .ok (Val.str ("oops")) := ⟨rfl, rfl⟩

/-- C4: the claim says a candidate declared from str to bool conforms to
the callable type from str to bool while mismatched candidates do not. On
the code, every candidate is rejected, the exactly matching foobar
included, because the comparison of the hinted parameter tuple with the
arg_types generator object is always false; the two mismatched candidates
are rejected as well, but by the same constant-false conjunction rather
than by signature comparison. -/
theorem matching_callable_candidate_rejected :
    check_type foobar (.callable [.simple .str] (.simple .boolT)) =
      .ok (.callable [.simple .str] (.simple .boolT), false) ∧
    check_type gStrStr (.callable [.simple .str] (.simple .boolT)) =
      .ok (.callable [.simple .str] (.simple .str), false) ∧
    check_type gIntBool (.callable [.simple .str] (.simple .boolT)) =
      .ok (.callable [.simple .intT] (.simple .boolT), false) := ⟨rfl, rfl, rfl⟩

/-- C5: argument checking is fail-fast. The call of hello_world on the
float 3.14 and foobar raises the argument mismatch naming foo, its
observed type float and its expected type str; and in general, when every
entry before a bound argument passes and that argument's matcher verdict
is false, the loop raises the mismatch naming it, and the entries after
it never influence the outcome: any two continuations give the same
result. -/
theorem argument_checking_fail_fast :
    typechecked hello_world [Val.float ("3.14"), foobar] [] =
      .error (.argMismatch ("foo") (.simple .floatT) (.simple .str)) ∧
    ∀ (hints : List (String × Hint)) (pre : List (String × Val)) (n : String)
      (v : Val) (h : Hint) (obs : Hint) (rest1 rest2 : List (String × Val)),
      (∀ p ∈ pre, entryOk hints p = true) →
      List.lookup n hints = some h →
      check_type v h = .ok (obs, false) →
      checkLoop hints (pre ++ (n, v) :: rest1) = .error (.argMismatch n obs h) ∧
      checkLoop hints (pre ++ (n, v) :: rest1) =
        checkLoop hints (pre ++ (n, v) :: rest2) := by
  constructor
  · rfl
  · intro hints pre n v h obs rest1 rest2 hpre hlk hct
    have key : ∀ rest : List (String × Val),
        checkLoop hints (pre ++ (n, v) :: rest) = .error (.argMismatch n obs h) := by
      intro rest
      rw [checkLoop_append_of_passes hints pre _ hpre]
      simp [checkLoop, hlk, hct]
    exact ⟨key rest1, (key rest1).trans (key rest2).symm⟩

/-- C5, witness: the general part applied to the bound arguments of the
call hello_world on 3.14 and foobar, with the check of bar as the
continuation in one run and nothing in the other. -/
theorem argument_checking_fail_fast_inst :
    checkLoop (get_type_hints helloWorldSig)
        ([] ++ (("foo"), Val.float ("3.14")) :: [(("bar"), foobar)]) =
      .error (.argMismatch ("foo") (.simple .floatT) (.simple .str)) ∧
    checkLoop (get_type_hints helloWorldSig)
        ([] ++ (("foo"), Val.float ("3.14")) :: [(("bar"), foobar)]) =
      checkLoop (get_type_hints helloWorldSig)
        ([] ++ (("foo"), Val.float ("3.14")) :: []) :=
  argument_checking_fail_fast.2 (get_type_hints helloWorldSig) [] ("foo")
    (Val.float ("3.14")) (Hint.simple Ty.str) (Hint.simple Ty.floatT)
    [(("bar"), foobar)] [] (List.forall_mem_nil _) rfl rfl

/-- C6: a parameter with no declared type is never checked. A bound name
absent from the hints is skipped by the loop whatever its value, and the
wrapped function with an unannotated parameter passes argument checking
for a value of every type. -/
theorem unannotated_parameter_never_checked :
    (∀ (hints : List (String × Hint)) (n : String) (v : Val)
        (rest : List (String × Val)),
        List.lookup n hints = Option.none →
        checkLoop hints ((n, v) :: rest) = checkLoop hints rest) ∧
    ∀ v : Val, check_arguments unannSig (get_type_hints unannSig) [v] [] = .ok () := by
  constructor
  · intro hints n v rest hl
    simp [checkLoop, hl]
  · intro v
    rfl

/-- C6, witness: the skip applied to the unannotated name x bound to the
integer 0, and argument checking of the unannotated function on a float. -/
theorem unannotated_parameter_never_checked_inst :
    checkLoop [(("return"), Hint.simple Ty.boolT)] [(("x"), Val.int 0)] =
      checkLoop [(("return"), Hint.simple Ty.boolT)] [] ∧
    check_arguments unannSig (get_type_hints unannSig) [Val.float ("2.72")] [] =
      .ok () :=
  ⟨unannotated_parameter_never_checked.1 [(("return"), Hint.simple Ty.boolT)] ("x")
      (Val.int 0) [] rfl,
   unannotated_parameter_never_checked.2 (Val.float ("2.72"))⟩

/-- C7, counterexample: absence of a declared return type is not
normalized in the return checker. Wrapping the fully unannotated function
plain and calling it makes check_return fail with the KeyError for the
missing return key, instead of treating the expected type as NoneType. -/
theorem missing_return_hint_key_error :
    typechecked plainFun [Val.int 7] [] = .error (.keyError ("return")) := rfl

/-- C7, amended: the return checker does not normalize a missing return
annotation: whenever the hints carry no return entry, check_return raises
the KeyError for that key. The normalization to NoneType exists only in
the callable-type matcher, where a candidate without a result annotation
is read as returning NoneType. -/
theorem check_return_missing_hint_raises_key_error :
    (∀ (nm : String) (r : Val) (hints : List (String × Hint)),
        List.lookup ("return") hints = Option.none →
        check_return nm r hints = .error (.keyError ("return"))) ∧
    ∀ (argAnns : List Hint) (hargs : List Hint) (hres : Hint),
      check_callable (Val.func argAnns Option.none) hargs hres =
        .ok (.callable argAnns (.simple .noneT), false) := by
  constructor
  · intro nm r hints hl
    simp [check_return, hl]
  · intro argAnns hargs hres
    rfl

/-- C7, witness: the amended theorem applied to the name plain and empty
hints, and to a candidate from str with no result annotation. -/
theorem check_return_missing_hint_raises_key_error_inst :
    check_return ("plain") Val.none [] = .error (.keyError ("return")) ∧
    check_callable (Val.func [Hint.simple Ty.str] Option.none) [Hint.simple Ty.str]
        (Hint.simple Ty.boolT) =
      .ok (.callable [Hint.simple Ty.str] (.simple .noneT), false) :=
  ⟨check_return_missing_hint_raises_key_error.1 ("plain") Val.none [] rfl,
   check_return_missing_hint_raises_key_error.2 [Hint.simple Ty.str]
     [Hint.simple Ty.str] (Hint.simple Ty.boolT)⟩

/-- C8, counterexample: a default-bound value is not type-checked like an
explicitly supplied argument. The parameter x of f is declared str with
default 3; supplying 3 explicitly raises the mismatch naming x, while the
call supplying nothing lets the same non-conforming default through and
runs the body, because Signature.bind leaves defaulted parameters out of
the bound arguments. -/
theorem default_value_not_checked :
    conformsB (Val.int 3) (.simple .str) = false ∧
    typechecked defFun [Val.int 3] [] =
      .error (.argMismatch ("x") (.simple .intT) (.simple .str)) ∧
    typechecked defFun [] [] = .ok (Val.bool true) := ⟨rfl, rfl, rfl⟩

/-- C8, amended: a formal parameter not supplied at the call site is
omitted from the bound arguments, so its default value is never
type-checked: every bound name was either positionally filled or supplied
by keyword, and the call of f without arguments passes the checks and
returns the body's result although the default violates the annotation. -/
theorem unsupplied_parameters_omitted_from_bound :
    (∀ (sig : Signature) (args : List Val) (kwargs : List (String × Val))
        (n : String) (v : Val),
        (n, v) ∈ boundArguments sig args kwargs →
        n ∈ posNames sig.params args.length ∨ n ∈ kwargs.map Prod.fst) ∧
    typechecked defFun [] [] = .ok (Val.bool true) := by
  constructor
  · intro sig args kwargs n v hmem
    exact boundArgsCore_mem sig.params args kwargs n v hmem
  · rfl

/-- C8, witness: the omission theorem applied to the call of f on the
explicit argument 3, whose single bound name x is positionally filled. -/
theorem unsupplied_parameters_omitted_from_bound_inst :
    (("x") ∈ posNames defFun.sig.params [Val.int 3].length ∨
      ("x") ∈ ([] : List (String × Val)).map Prod.fst) ∧
    typechecked defFun [] [] = .ok (Val.bool true) :=
  ⟨unsupplied_parameters_omitted_from_bound.1 defFun.sig [Val.int 3] [] ("x")
      (Val.int 3) (by decide),
   unsupplied_parameters_omitted_from_bound.2⟩

/-- C9: for a plain, non-callable hint the matcher verdict is the host
instance test of the value's runtime class against the hinted class, so
subclasses conform, and the observed type it reports is the concrete
runtime class whatever the verdict: a bool conforms to int yet is
reported as bool, and is reported as bool when it fails against str too. -/
theorem simple_hint_instance_check :
    (∀ (v : Val) (t : Ty),
        check_type v (.simple t) = .ok (.simple (typeOf v), isSubclass (typeOf v) t)) ∧
    check_type (Val.bool true) (.simple .intT) = .ok (.simple .boolT, true) ∧
    check_type (Val.bool true) (.simple .str) = .ok (.simple .boolT, false) :=
  ⟨fun _ _ => rfl, rfl, rfl⟩

/-- C10: when the supplied arguments cannot be bound to the formal
parameter list, Signature.bind raises its TypeError, the whole argument
check raises it for every hints table, so before any declared-type
comparison, and the wrapped call raises it for every body, so the
original callable's body is never executed. -/
theorem bind_failure_raises_before_checks :
    ∀ (sig : Signature) (args : List Val) (kwargs : List (String × Val)) (e : PyError),
      signatureBind sig args kwargs = .error e →
      e = PyError.bindError ∧
      (∀ hints : List (String × Hint),
          check_arguments sig hints args kwargs = .error PyError.bindError) ∧
      ∀ (nm : String) (b : List (String × Val) → Val),
        typechecked ⟨nm, sig, b⟩ args kwargs = .error PyError.bindError := by
  intro sig args kwargs e hb
  have hno : bindOk sig args kwargs = false := by
    cases hx : bindOk sig args kwargs with
    | false => rfl
    | true => simp [signatureBind, hx] at hb
  have hsb : signatureBind sig args kwargs = .error PyError.bindError := by
    simp [signatureBind, hno]
  refine ⟨?_, ?_, ?_⟩
  · rw [hb] at hsb
    exact Except.error.inj hsb
  · intro hints
    simp [check_arguments, hsb]
  · intro nm b
    apply typechecked_error_of_args
    show check_arguments sig (get_type_hints sig) args kwargs = .error PyError.bindError
    simp [check_arguments, hsb]

/-- C10, witness: the theorem applied to a call of hello_world with three
positional arguments, one more than its two parameters. -/
theorem bind_failure_raises_before_checks_inst :
    check_arguments helloWorldSig [] [Val.none, Val.none, Val.none] [] =
      .error PyError.bindError ∧
    typechecked hello_world [Val.none, Val.none, Val.none] [] =
      .error PyError.bindError := by
  obtain ⟨-, h2, h3⟩ :=
    bind_failure_raises_before_checks helloWorldSig [Val.none, Val.none, Val.none] []
      PyError.bindError rfl
  exact ⟨h2 [], h3 ("hello_world") (fun _ => Val.bool true)⟩

end Tsukkomi
